import Mathlib

/-!
Verification of the KhietAn Homestay backend (`src/backend/server.py`).

The server is a Flask application over a MongoDB collection of room
documents with a JSON-file fallback store.  The definitions below are a
shallow embedding of the route handlers and their helper functions:

* dates are the `YYYY-MM-DD` strings of the source, compared
  lexicographically by code point exactly as Python compares `str`
  values (`strLt`/`strLe` below compare the character lists, which is
  the same order);
* a Python dict possibly lacking the `bookedIntervals` key is modelled
  by `Option (List Interval)`;
* the MongoDB collection and the fallback list are both modelled as
  `List Room`; `find_one`/`next(...)` become `List.find?`, and a
  mutation of the object found by `next(...)` becomes `updateFirst`;
* an HTTP response is modelled by a small inductive per endpoint
  (status/message pairs of the source map one-to-one onto
  constructors), and where the handler also writes the fallback file
  (`save_fallback_data`) the model returns a `Bool` flag recording
  that write;
* numbers passed through `float(...)`/`int(...)` are modelled as `Int`
  (no claim depends on floating-point behaviour), and timestamps
  (`datetime.now().isoformat()` etc.) are taken as an explicit `now`
  argument.
-/

namespace Homestay

/-- Python string `<` (code-point lexicographic), as used on the
`YYYY-MM-DD` date strings of `server.py`. -/
def strLt (a b : String) : Bool := decide (a.data < b.data)

/-- Python string `<=`, as used in `check_in <= today < check_out`. -/
def strLe (a b : String) : Bool := decide (a.data ≤ b.data)

/-- A booking interval as built by `book_room` and mutated by
`update_booking`.  `updatedAt` is `none` until `update_booking` first
touches the interval (the key is absent in a fresh interval). -/
structure Interval where
  checkIn : String
  checkOut : String
  guestName : String
  guestPhone : String
  guestEmail : String
  notes : String
  createdAt : String
  updatedAt : Option String
deriving DecidableEq

/-- A room document.  `bookedIntervals = none` models a stored dict
with no `bookedIntervals` key at all (the handlers test
`'bookedIntervals' in room`). -/
structure Room where
  id : String
  name : String
  price : Int
  persons : Int
  description : String
  amenities : List String
  bookedIntervals : Option (List Interval)
  created_at : String
  updated_at : String
deriving DecidableEq

/-- The shape produced by `convert_room_for_api`. -/
structure ApiRoom where
  room_id : String
  id : String
  name : String
  price : Int
  capacity : Int
  persons : Int
  description : String
  amenities : List String
  bookedIntervals : List Interval
  created_at : Option String
  updated_at : Option String
deriving DecidableEq

/-- `convert_room_for_api` (`server.py` lines 113-139): maps stored
field names to API field names; missing `bookedIntervals` becomes `[]`,
falsy timestamps become `None`. -/
def convertRoomForApi (room : Room) : ApiRoom :=
  { room_id := room.id
    id := room.id
    name := room.name
    price := room.price
    capacity := room.persons
    persons := room.persons
    description := room.description
    amenities := room.amenities
    bookedIntervals := room.bookedIntervals.getD []
    created_at := if room.created_at = "" then none else some room.created_at
    updated_at := if room.updated_at = "" then none else some room.updated_at }

/-- Replace the first room satisfying `p` by `f` applied to it; this is
what a Python in-place mutation of `next((r for r in fallback_rooms if
...), None)` does to the list. -/
def updateFirst (p : Room → Bool) (f : Room → Room) : List Room → List Room
  | [] => []
  | r :: rs => if p r then f r :: rs else r :: updateFirst p f rs

/-- Response of GET `/backend/api/rooms` (`get_public_rooms`). -/
inductive RoomsResp
  | ok (data : List ApiRoom) (count : Nat) (source : String)
  | err (msg : String)
deriving DecidableEq

/-- `get_public_rooms` (`server.py` lines 169-205).  The first argument
is the state of the primary backend during the request: `none` when
`rooms_collection is None`, `some (.ok rooms)` when the MongoDB `find()`
succeeds, `some (.error e)` when it raises.  Returns the response and
the HTTP status code. -/
def getPublicRooms (collectionFind : Option (Except String (List Room)))
    (fallbackRooms : List Room) : RoomsResp × Nat :=
  match collectionFind with
  | none =>
    (RoomsResp.ok (fallbackRooms.map convertRoomForApi) fallbackRooms.length "fallback", 200)
  | some (Except.ok rooms) =>
    (RoomsResp.ok (rooms.map convertRoomForApi) rooms.length "mongodb", 200)
  | some (Except.error e) =>
    if fallbackRooms.isEmpty then (RoomsResp.err e, 500)
    else
      (RoomsResp.ok (fallbackRooms.map convertRoomForApi) fallbackRooms.length
        "fallback_error_recovery", 200)

/-- The availability classification of `get_room_status` (`server.py`
lines 303-316) and `get_available_rooms` (lines 253-267): walk the
interval list in order, stop at the first interval with
`checkIn <= today < checkOut`; return the availability flag and the
`currentBooking` dates. -/
def classifyAvailability (intervals : List Interval) (today : String) :
    Bool × Option (String × String) :=
  match intervals with
  | [] => (true, none)
  | i :: rest =>
    if strLe i.checkIn today && strLt today i.checkOut then
      (false, some (i.checkIn, i.checkOut))
    else classifyAvailability rest today

/-- The inner helper `has_duplicate_booking` of `book_room` (`server.py`
lines 626-639): an existing interval conflicts if it is an exact
duplicate (same `checkIn`, `checkOut` and `guestName`) or, when both of
its date strings are truthy (non-empty), its range overlaps the
candidate half-open range (`check_in < existing_end and check_out >
existing_start`). -/
def hasDuplicateBooking (checkIn checkOut guestName : String)
    (existingIntervals : List Interval) : Bool :=
  existingIntervals.any fun interval =>
    (interval.checkIn == checkIn && interval.checkOut == checkOut &&
      interval.guestName == guestName)
    ||
    (!(interval.checkIn == "") && !(interval.checkOut == "") &&
      strLt checkIn interval.checkOut && strLt interval.checkIn checkOut)

/-- The overlap clause of `has_duplicate_booking` alone, without the
exact-duplicate clause.  This is the simplification the specification
describes ("implementers may simplify to the overlap test alone"); it
exists only to be compared with `hasDuplicateBooking`. -/
def overlapOnlyConflict (checkIn checkOut : String)
    (existingIntervals : List Interval) : Bool :=
  existingIntervals.any fun interval =>
    !(interval.checkIn == "") && !(interval.checkOut == "") &&
      strLt checkIn interval.checkOut && strLt interval.checkIn checkOut

/-- The interval document `book_room` builds (`server.py` lines
641-649); no `updatedAt` key yet. -/
def newBookingInterval (checkIn checkOut guestName guestPhone guestEmail notes now : String) :
    Interval :=
  { checkIn := checkIn
    checkOut := checkOut
    guestName := guestName
    guestPhone := guestPhone
    guestEmail := guestEmail
    notes := notes
    createdAt := now
    updatedAt := none }

/-- Response of POST `/backend/api/admin/rooms/{id}/book`. -/
inductive BookResp
  | missingFields
  | notFound
  | conflict
  | ok (interval : Interval)
deriving DecidableEq

/-- `book_room`, fallback branch (`server.py` lines 610-670): validate
the required fields, find the room, reject on `has_duplicate_booking`,
otherwise append the new interval, stamp `updated_at` and save the
file.  The third component records whether `save_fallback_data` ran. -/
def bookRoomFallback (store : List Room)
    (roomId checkIn checkOut guestName guestPhone guestEmail notes now : String) :
    BookResp × List Room × Bool :=
  if checkIn = "" ∨ checkOut = "" ∨ guestName = "" then
    (BookResp.missingFields, store, false)
  else
    match store.find? (fun r => r.id == roomId) with
    | none => (BookResp.notFound, store, false)
    | some room =>
      if hasDuplicateBooking checkIn checkOut guestName (room.bookedIntervals.getD []) then
        (BookResp.conflict, store, false)
      else
        let newInterval := newBookingInterval checkIn checkOut guestName guestPhone
          guestEmail notes now
        (BookResp.ok newInterval,
         updateFirst (fun r => r.id == roomId)
           (fun r => { r with
             bookedIntervals := some (r.bookedIntervals.getD [] ++ [newInterval])
             updated_at := now }) store,
         true)

/-- Response of POST `/backend/api/admin/rooms/{id}/unbook`. -/
inductive UnbookResp
  | missingFields
  | notFound
  | bookingNotFound
  | ok
deriving DecidableEq

/-- `unbook_room`, fallback branch (`server.py` lines 719-756): when
the room has a `bookedIntervals` key, drop every interval whose
`(checkIn, checkOut)` equals the requested pair; if nothing was dropped
answer 404, else stamp `updated_at` and save.  When the key is absent
the whole block is skipped and the handler answers 200. -/
def unbookRoomFallback (store : List Room) (roomId checkIn checkOut now : String) :
    UnbookResp × List Room × Bool :=
  if checkIn = "" ∨ checkOut = "" then (UnbookResp.missingFields, store, false)
  else
    match store.find? (fun r => r.id == roomId) with
    | none => (UnbookResp.notFound, store, false)
    | some room =>
      match room.bookedIntervals with
      | none => (UnbookResp.ok, store, false)
      | some intervals =>
        let remaining := intervals.filter fun i =>
          !(i.checkIn == checkIn && i.checkOut == checkOut)
        if remaining.length = intervals.length then
          (UnbookResp.bookingNotFound, store, false)
        else
          (UnbookResp.ok,
           updateFirst (fun r => r.id == roomId)
             (fun _ => { room with bookedIntervals := some remaining, updated_at := now })
             store,
           true)

/-- `unbook_room`, MongoDB branch (`server.py` lines 757-796): one
`update_one` with a `$pull` of the matching intervals and a `$set` of
`updated_at`; the handler answers 404 exactly when `modified_count`
is `0`, i.e. when the stored document is unchanged by the update
(a `$pull` on an absent field leaves the field absent). -/
def unbookRoomMongo (coll : List Room) (roomId checkIn checkOut now : String) :
    UnbookResp × List Room :=
  if checkIn = "" ∨ checkOut = "" then (UnbookResp.missingFields, coll)
  else
    match coll.find? (fun r => r.id == roomId) with
    | none => (UnbookResp.notFound, coll)
    | some room =>
      let newRoom := { room with
        bookedIntervals := room.bookedIntervals.map fun l =>
          l.filter fun i => !(i.checkIn == checkIn && i.checkOut == checkOut)
        updated_at := now }
      if newRoom = room then (UnbookResp.bookingNotFound, coll)
      else
        (UnbookResp.ok, updateFirst (fun r => r.id == roomId) (fun _ => newRoom) coll)

/-- Response of PUT `/backend/api/admin/rooms/{id}/update-booking`. -/
inductive UpdateBkResp
  | missingFields
  | notFound
  | bookingNotFound
  | ok
deriving DecidableEq

/-- The mutation `update_booking` performs on the matched interval
(`server.py` lines 833-837): overwrite the guest fields and `notes`
and set `updatedAt`. -/
def setGuestFields (guestName guestPhone guestEmail notes now : String)
    (i : Interval) : Interval :=
  { i with
    guestName := guestName
    guestPhone := guestPhone
    guestEmail := guestEmail
    notes := notes
    updatedAt := some now }

/-- Apply `f` to the first interval whose `(checkIn, checkOut)` equals
the given pair; `none` when no interval matches.  Models the
`for ... break / else` loop of `update_booking`. -/
def updateFirstInterval (checkIn checkOut : String) (f : Interval → Interval) :
    List Interval → Option (List Interval)
  | [] => none
  | i :: rest =>
    if i.checkIn == checkIn && i.checkOut == checkOut then some (f i :: rest)
    else (updateFirstInterval checkIn checkOut f rest).map (i :: ·)

/-- `update_booking`, fallback branch (`server.py` lines 803-846):
validate, find the room; when the room has a `bookedIntervals` key,
update the first interval matching the pair (404 when none does),
stamp the room's `updated_at` and save; when the key is absent the
block is skipped and the handler answers 200 without touching
anything. -/
def updateBookingFallback (store : List Room)
    (roomId checkIn checkOut guestName guestPhone guestEmail notes now : String) :
    UpdateBkResp × List Room × Bool :=
  if checkIn = "" ∨ checkOut = "" ∨ guestName = "" then
    (UpdateBkResp.missingFields, store, false)
  else
    match store.find? (fun r => r.id == roomId) with
    | none => (UpdateBkResp.notFound, store, false)
    | some room =>
      match room.bookedIntervals with
      | none => (UpdateBkResp.ok, store, false)
      | some intervals =>
        match updateFirstInterval checkIn checkOut
            (setGuestFields guestName guestPhone guestEmail notes now) intervals with
        | none => (UpdateBkResp.bookingNotFound, store, false)
        | some newIntervals =>
          (UpdateBkResp.ok,
           updateFirst (fun r => r.id == roomId)
             (fun _ => { room with bookedIntervals := some newIntervals, updated_at := now })
             store,
           true)

/-- The body of POST `/backend/api/admin/rooms` as the handler reads
it: the five required fields plus the optional `custom_id`. -/
structure CreateReq where
  name : Option String
  price : Option Int
  capacity : Option Int
  description : Option String
  amenities : Option (List String)
  custom_id : Option String
deriving DecidableEq

/-- The `all(field in data for field in required_fields)` check of
`add_room` (`server.py` lines 404-409). -/
def requiredFieldsPresent (req : CreateReq) : Bool :=
  req.name.isSome && req.price.isSome && req.capacity.isSome &&
    req.description.isSome && req.amenities.isSome

/-- CPython `str.isdigit` on an ASCII character (`'0' <= c <= '9'`).
The source only ever meets ASCII ids; on non-ASCII digit characters
CPython's `isdigit` is wider than this model, so theorems about it
carry an all-ASCII hypothesis. -/
def pyCharIsDigit (c : Char) : Bool := decide ('0' ≤ c) && decide (c ≤ '9')

/-- CPython `str.isdigit` (ASCII fragment): non-empty and all digits. -/
def pyIsDigit (s : String) : Bool := !(s.data.isEmpty) && s.data.all pyCharIsDigit

/-- Truthiness of `data.get('custom_id')`: the key must be present and
the string non-empty (`if custom_id:`). -/
def customIdTruthy : Option String → Bool
  | none => false
  | some s => !(s == "")

/-- Python `int(...)` on an all-digit decimal string. -/
def digitsToNat (s : String) : Nat :=
  s.data.foldl (fun n c => n * 10 + (c.toNat - '0'.toNat)) 0

/-- Python `str.zfill(4)` on a digit string: left-pad with `'0'` to
length 4. -/
def zfill4 (s : String) : String :=
  if s.length ≥ 4 then s else String.mk (List.replicate (4 - s.length) '0') ++ s

/-- Id synthesis of the fallback branch of `add_room` (`server.py`
lines 437-438): one more than the maximum numeric id (or than 0),
zero-padded to 4 digits. -/
def generatedFallbackId (store : List Room) : String :=
  let numericIds := store.filterMap fun r =>
    if pyIsDigit r.id then some (digitsToNat r.id) else none
  zfill4 (toString (numericIds.foldl max 0 + 1))

/-- The id a fallback-mode create resolves to (`server.py` lines
432-439): the caller's `custom_id` when truthy, else the synthesized
one. -/
def resolvedFallbackId (store : List Room) (req : CreateReq) : String :=
  if customIdTruthy req.custom_id then req.custom_id.getD "" else generatedFallbackId store

/-- Response of POST `/backend/api/admin/rooms`. -/
inductive AddResp
  | missingFields
  | invalidId
  | duplicate (id : String)
  | created (room : Room)
deriving DecidableEq

/-- The room document `add_room` builds (`server.py` lines 420-430)
with the resolved id; a fresh room always carries `bookedIntervals =
[]` (key present). -/
def newRoomDoc (req : CreateReq) (rid now : String) : Room :=
  { id := rid
    name := req.name.getD ""
    price := req.price.getD 0
    persons := req.capacity.getD 0
    description := req.description.getD ""
    amenities := req.amenities.getD []
    bookedIntervals := some []
    created_at := now
    updated_at := now }

/-- Whether a truthy `custom_id` passes the 4-digit check of
`add_room` (`server.py` lines 412-418). -/
def customIdValid (req : CreateReq) : Bool :=
  pyIsDigit (req.custom_id.getD "") && (req.custom_id.getD "").length == 4

/-- `add_room`, fallback branch (`server.py` lines 397-451): required
fields, 4-digit check on a truthy `custom_id`, id resolution, duplicate
check against the fallback list, then append and save. -/
def addRoomFallback (store : List Room) (req : CreateReq) (now : String) :
    AddResp × List Room × Bool :=
  if !(requiredFieldsPresent req) then (AddResp.missingFields, store, false)
  else if customIdTruthy req.custom_id && !(customIdValid req) then
    (AddResp.invalidId, store, false)
  else
    let rid := resolvedFallbackId store req
    match store.find? (fun r => r.id == rid) with
    | some _ => (AddResp.duplicate rid, store, false)
    | none =>
      let room := newRoomDoc req rid now
      (AddResp.created room, store ++ [room], true)

/-- MongoDB `ReplaceOne(..., upsert=True)` on a collection with unique
ids: replace the matching document, or append when none matches. -/
def replaceOneUpsert (coll : List Room) (rid : String) (doc : Room) : List Room :=
  if coll.any (fun r => r.id == rid) then
    coll.map fun r => if r.id == rid then doc else r
  else coll ++ [doc]

/-- `add_room`, MongoDB branch (`server.py` lines 397-430 and 452-470):
same validation; with a truthy `custom_id` the collection is checked
for a duplicate, otherwise the id is a freshly generated `ObjectId()`
(passed in as `oid`; the driver guarantees it is new) and no duplicate
check runs before the upsert. -/
def addRoomMongo (coll : List Room) (req : CreateReq) (oid now : String) :
    AddResp × List Room :=
  if !(requiredFieldsPresent req) then (AddResp.missingFields, coll)
  else if customIdTruthy req.custom_id && !(customIdValid req) then
    (AddResp.invalidId, coll)
  else if customIdTruthy req.custom_id then
    let rid := req.custom_id.getD ""
    match coll.find? (fun r => r.id == rid) with
    | some _ => (AddResp.duplicate rid, coll)
    | none =>
      let room := newRoomDoc req rid now
      (AddResp.created room, replaceOneUpsert coll rid room)
  else
    let room := newRoomDoc req oid now
    (AddResp.created room, replaceOneUpsert coll oid room)

/-- The body of PUT `/backend/api/admin/rooms/{id}`: each updatable
field is present or absent. -/
structure UpdateReq where
  name : Option String
  price : Option Int
  capacity : Option Int
  persons : Option Int
  description : Option String
  amenities : Option (List String)
deriving DecidableEq

/-- The field application of the fallback branch of `update_room`
(`server.py` lines 498-508): each of the five handled keys overwrites
its field when present (`capacity` feeds the stored `persons`); a
`persons` key in the body is ignored in this branch; `updated_at` is
always refreshed. -/
def applyUpdateFallback (room : Room) (req : UpdateReq) (now : String) : Room :=
  { room with
    name := req.name.getD room.name
    price := req.price.getD room.price
    persons := req.capacity.getD room.persons
    description := req.description.getD room.description
    amenities := req.amenities.getD room.amenities
    updated_at := now }

/-- The field application of the MongoDB branch of `update_room`
(`server.py` lines 530-545): as the fallback branch, but a `persons`
key is also handled and, coming later, wins over `capacity`. -/
def applyUpdateMongo (room : Room) (req : UpdateReq) (now : String) : Room :=
  { room with
    name := req.name.getD room.name
    price := req.price.getD room.price
    persons := req.persons.getD (req.capacity.getD room.persons)
    description := req.description.getD room.description
    amenities := req.amenities.getD room.amenities
    updated_at := now }

/-- Response of PUT `/backend/api/admin/rooms/{id}`. -/
inductive UpdateResp
  | notFound
  | ok (room : Room)
deriving DecidableEq

/-- `update_room`, fallback branch (`server.py` lines 483-511): find
the room (404 when absent), apply the present fields in place, save. -/
def updateRoomFallback (store : List Room) (roomId : String) (req : UpdateReq)
    (now : String) : UpdateResp × List Room × Bool :=
  match store.find? (fun r => r.id == roomId) with
  | none => (UpdateResp.notFound, store, false)
  | some room =>
    let newRoom := applyUpdateFallback room req now
    (UpdateResp.ok newRoom,
     updateFirst (fun r => r.id == roomId) (fun _ => newRoom) store,
     true)

/-- `update_room`, MongoDB branch (`server.py` lines 513-551): find the
existing document (404 when absent), build the updated copy, write it
back with a `ReplaceOne` upsert. -/
def updateRoomMongo (coll : List Room) (roomId : String) (req : UpdateReq)
    (now : String) : UpdateResp × List Room :=
  match coll.find? (fun r => r.id == roomId) with
  | none => (UpdateResp.notFound, coll)
  | some room =>
    let newRoom := applyUpdateMongo room req now
    (UpdateResp.ok newRoom, replaceOneUpsert coll roomId newRoom)

/-- Remove only the first interval matching the pair: the behaviour the
specification ascribes to `removeBooking`.  Exists only to be compared
with what `unbook_room` actually does. -/
def removeFirstPair (checkIn checkOut : String) : List Interval → List Interval
  | [] => []
  | i :: rest =>
    if i.checkIn == checkIn && i.checkOut == checkOut then rest
    else i :: removeFirstPair checkIn checkOut rest

/-! ## Helper lemmas -/

theorem strLt_iff (a b : String) : strLt a b = true ↔ a < b := by
  simp [strLt, String.lt_iff_toList_lt, String.toList]

theorem strLe_iff (a b : String) : strLe a b = true ↔ a ≤ b := by
  simp [strLe, String.le_iff_toList_le, String.toList]

theorem str_not_lt_empty (s : String) : ¬ s < "" := by
  rw [String.lt_iff_toList_lt]
  exact List.Lex.not_nil_right _ _

theorem hasDuplicateBooking_iff (L : List Interval) (cIn cOut g : String) :
    hasDuplicateBooking cIn cOut g L = true ↔
      ∃ i ∈ L, (i.checkIn = cIn ∧ i.checkOut = cOut ∧ i.guestName = g) ∨
        (i.checkIn ≠ "" ∧ i.checkOut ≠ "" ∧ cIn < i.checkOut ∧ i.checkIn < cOut) := by
  simp [hasDuplicateBooking, List.any_eq_true, strLt_iff, and_assoc]

theorem classifyAvailability_fst (L : List Interval) (d : String) :
    (classifyAvailability L d).1 = !(L.any fun i => strLe i.checkIn d && strLt d i.checkOut) := by
  induction L with
  | nil => rfl
  | cons i rest ih =>
    by_cases h : (strLe i.checkIn d && strLt d i.checkOut) = true
    · simp [classifyAvailability, h]
    · simp only [Bool.not_eq_true] at h
      simp [classifyAvailability, h, ih]

theorem classifyAvailability_snd (L : List Interval) (d : String) :
    (classifyAvailability L d).2 =
      (L.find? fun i => strLe i.checkIn d && strLt d i.checkOut).map
        fun i => (i.checkIn, i.checkOut) := by
  induction L with
  | nil => rfl
  | cons i rest ih =>
    by_cases h : (strLe i.checkIn d && strLt d i.checkOut) = true
    · simp [classifyAvailability, List.find?, h]
    · simp only [Bool.not_eq_true] at h
      simp [classifyAvailability, List.find?, h, ih]

/-! ## Sample data used by concrete instances -/

/-- The interval `[2024-06-01, 2024-06-05)` of the specification's example. -/
def juneInterval : Interval :=
  { checkIn := "2024-06-01", checkOut := "2024-06-05", guestName := "Alice",
    guestPhone := "", guestEmail := "", notes := "", createdAt := "T0", updatedAt := none }

/-- A degenerate interval with `checkIn = checkOut` (the source never
validates `checkIn < checkOut`, and `book_room` accepts such an interval
on an empty room since an empty half-open range overlaps nothing). -/
def degenInterval : Interval :=
  { checkIn := "2024-06-01", checkOut := "2024-06-01", guestName := "Alice",
    guestPhone := "", guestEmail := "", notes := "", createdAt := "T0", updatedAt := none }

/-- A plain room with one booked interval. -/
def sampleRoom : Room :=
  { id := "0101", name := "Suite", price := 100, persons := 2, description := "d",
    amenities := ["wifi"], bookedIntervals := some [juneInterval],
    created_at := "T0", updated_at := "T0" }

/-! ## Claim theorems -/

/-- C2: `classifyAvailability` reports the room unavailable exactly when some
interval satisfies `checkIn <= asOfDate < checkOut` under lexicographic string
comparison, and the reported current booking is the dates of the first such
interval in list order (not date order); in particular, for the interval
`[2024-06-01, 2024-06-05)` the room is unavailable on `2024-06-03` and
available on `2024-06-05` and on `2024-05-31`. -/
theorem classify_availability_spec :
    (∀ (intervals : List Interval) (asOfDate : String),
      (classifyAvailability intervals asOfDate).1 = false ↔
        ∃ i ∈ intervals, i.checkIn ≤ asOfDate ∧ asOfDate < i.checkOut)
    ∧ (∀ (intervals : List Interval) (asOfDate : String),
      (classifyAvailability intervals asOfDate).2 =
        (intervals.find? fun i => strLe i.checkIn asOfDate && strLt asOfDate i.checkOut).map
          fun i => (i.checkIn, i.checkOut))
    ∧ (classifyAvailability [juneInterval] "2024-06-03").1 = false
    ∧ (classifyAvailability [juneInterval] "2024-06-05").1 = true
    ∧ (classifyAvailability [juneInterval] "2024-05-31").1 = true := by
  refine ⟨?_, ?_, by decide, by decide, by decide⟩
  · intro L d
    rw [classifyAvailability_fst]
    simp [List.any_eq_true, strLe_iff, strLt_iff]
  · intro L d
    exact classifyAvailability_snd L d

/-- C5 counterexample: for a degenerate stored interval whose `checkIn` and
`checkOut` are both `2024-06-01`, a candidate with the same dates and guest is
rejected by the exact-duplicate clause of `has_duplicate_booking`, but the
overlap clause alone accepts it (an empty half-open range overlaps nothing),
so the conflict decision differs with and without the exact-duplicate
clause even though the duplicate's dates are equal. -/
theorem exact_duplicate_not_subsumed_degenerate :
    degenInterval.checkIn = "2024-06-01" ∧ degenInterval.checkOut = "2024-06-01" ∧
    hasDuplicateBooking "2024-06-01" "2024-06-01" "Alice" [degenInterval] = true ∧
    overlapOnlyConflict "2024-06-01" "2024-06-01" [degenInterval] = false := by
  exact ⟨rfl, rfl, by decide, by decide⟩

/-- C5 (amended): the exact-duplicate clause of `has_duplicate_booking` is
subsumed by the half-open overlap clause for every candidate whose `checkIn`
is non-empty and strictly below its `checkOut` (equal non-degenerate ranges
always overlap): with such dates the conflict decision is the same with or
without the exact-duplicate clause, whatever the existing intervals are.  For
a degenerate candidate (`checkIn = checkOut`) the clauses genuinely differ. -/
theorem exact_duplicate_subsumption :
    ∀ (existingIntervals : List Interval) (checkIn checkOut guestName : String),
      checkIn ≠ "" → checkIn < checkOut →
      hasDuplicateBooking checkIn checkOut guestName existingIntervals =
        overlapOnlyConflict checkIn checkOut existingIntervals := by
  intro L cin cout g hne hlt
  have hcoutne : cout ≠ "" := by
    intro h
    rw [h] at hlt
    exact str_not_lt_empty _ hlt
  induction L with
  | nil => rfl
  | cons i rest ih =>
    simp only [hasDuplicateBooking, overlapOnlyConflict, List.any_cons] at ih ⊢
    rw [ih]
    congr 1
    by_cases hd : (i.checkIn == cin && i.checkOut == cout && i.guestName == g) = true
    · simp only [Bool.and_eq_true, beq_iff_eq] at hd
      obtain ⟨⟨h1, h2⟩, h3⟩ := hd
      have hlt' : strLt cin cout = true := (strLt_iff _ _).mpr hlt
      simp [h1, h2, h3, hlt', beq_iff_eq, hne, hcoutne]
    · simp only [Bool.not_eq_true] at hd
      simp [hd]

/-- C9: when the primary backend raises during GET `/backend/api/rooms` and
the file snapshot is non-empty, the handler still answers 200 with the
snapshot's rooms and the degraded source tag `fallback_error_recovery`
instead of propagating the error; it answers 500 exactly when the snapshot
is empty. -/
theorem get_public_rooms_fallback_spec :
    ∀ (e : String) (fallbackRooms : List Room),
      (fallbackRooms ≠ [] →
        getPublicRooms (some (Except.error e)) fallbackRooms =
          (RoomsResp.ok (fallbackRooms.map convertRoomForApi) fallbackRooms.length
            "fallback_error_recovery", 200))
      ∧ getPublicRooms (some (Except.error e)) [] = (RoomsResp.err e, 500) := by
  intro e fb
  refine ⟨fun h => ?_, rfl⟩
  simp [getPublicRooms, h]

/-- Witness for C9 at a concrete snapshot. -/
theorem get_public_rooms_fallback_spec_witness :
    getPublicRooms (some (Except.error "connection reset")) [sampleRoom] =
      (RoomsResp.ok [convertRoomForApi sampleRoom] 1 "fallback_error_recovery", 200) :=
  (get_public_rooms_fallback_spec "connection reset" [sampleRoom]).1 (by decide)

/-- C10: in fallback mode, when the stored room has no `bookedIntervals`
field at all, `unbook_room` skips the whole cancellation block and answers
200 (Booking cancelled successfully) without modifying the store and without
writing the fallback file, instead of answering 404 for the requested pair. -/
theorem unbook_room_missing_intervals_spec :
    ∀ (store : List Room) (roomId checkIn checkOut now : String) (room : Room),
      checkIn ≠ "" → checkOut ≠ "" →
      store.find? (fun r => r.id == roomId) = some room →
      room.bookedIntervals = none →
      unbookRoomFallback store roomId checkIn checkOut now = (UnbookResp.ok, store, false) := by
  intro store rid cin cout now room h1 h2 hf hb
  simp [unbookRoomFallback, h1, h2, hf, hb]

/-- Witness for C10: a concrete room stored without the field. -/
theorem unbook_room_missing_intervals_spec_witness :
    unbookRoomFallback [{ sampleRoom with bookedIntervals := none }] "0101"
      "2024-06-01" "2024-06-05" "T1" =
      (UnbookResp.ok, [{ sampleRoom with bookedIntervals := none }], false) :=
  unbook_room_missing_intervals_spec [{ sampleRoom with bookedIntervals := none }] "0101"
    "2024-06-01" "2024-06-05" "T1" { sampleRoom with bookedIntervals := none }
    (by decide) (by decide) rfl rfl

/-- Witness for C5 at a concrete non-degenerate candidate. -/
theorem exact_duplicate_subsumption_witness :
    hasDuplicateBooking "2024-06-01" "2024-06-05" "Alice" [juneInterval] =
      overlapOnlyConflict "2024-06-01" "2024-06-05" [juneInterval] :=
  exact_duplicate_subsumption [juneInterval] "2024-06-01" "2024-06-05" "Alice"
    (by decide) ((strLt_iff _ _).mp (by decide))

/-- C1 counterexample: the candidate `[2024-06-01, 2024-06-01)` is
back-to-back with the stored interval (the existing `checkOut` equals the
candidate `checkIn`) and the two half-open ranges do not intersect, yet
`book_room` answers 409: the exact-duplicate clause (same `checkIn`,
`checkOut` and `guestName`) fires, while the claim says every back-to-back
candidate is accepted. -/
theorem book_room_back_to_back_rejected :
    degenInterval.checkOut = "2024-06-01" ∧
    ¬(("2024-06-01" : String) < degenInterval.checkOut ∧
      degenInterval.checkIn < "2024-06-01") ∧
    (bookRoomFallback [{ sampleRoom with bookedIntervals := some [degenInterval] }] "0101"
      "2024-06-01" "2024-06-01" "Alice" "" "" "" "T1").1 = BookResp.conflict := by
  refine ⟨rfl, ?_, by decide⟩
  intro h
  exact absurd h.1 (lt_irrefl _)

/-- C1 (amended): in fallback mode, for a room whose stored intervals all
have non-empty date strings (as every interval created through `book_room`
does), a candidate booking is rejected with 409 exactly when its half-open
range `[checkIn, checkOut)` intersects some existing interval's range
(regardless of guest identity) or the candidate is an exact duplicate of an
existing interval (same `checkIn`, `checkOut` and `guestName`); otherwise —
in particular for back-to-back ranges that are not exact duplicates — the
booking is accepted and the interval is appended to the room's
`bookedIntervals` list. -/
theorem book_room_conflict_spec :
    ∀ (store : List Room)
      (roomId checkIn checkOut guestName guestPhone guestEmail notes now : String)
      (room : Room),
      checkIn ≠ "" → checkOut ≠ "" → guestName ≠ "" →
      store.find? (fun r => r.id == roomId) = some room →
      (∀ i ∈ room.bookedIntervals.getD [], i.checkIn ≠ "" ∧ i.checkOut ≠ "") →
      (((bookRoomFallback store roomId checkIn checkOut guestName guestPhone
          guestEmail notes now).1 = BookResp.conflict ↔
        ∃ i ∈ room.bookedIntervals.getD [],
          (checkIn < i.checkOut ∧ i.checkIn < checkOut) ∨
          (i.checkIn = checkIn ∧ i.checkOut = checkOut ∧ i.guestName = guestName))
      ∧ ((∀ i ∈ room.bookedIntervals.getD [],
            ¬((checkIn < i.checkOut ∧ i.checkIn < checkOut) ∨
              (i.checkIn = checkIn ∧ i.checkOut = checkOut ∧ i.guestName = guestName))) →
          bookRoomFallback store roomId checkIn checkOut guestName guestPhone
            guestEmail notes now =
            (BookResp.ok (newBookingInterval checkIn checkOut guestName guestPhone
              guestEmail notes now),
             updateFirst (fun r => r.id == roomId)
               (fun r => { r with
                 bookedIntervals := some (r.bookedIntervals.getD [] ++
                   [newBookingInterval checkIn checkOut guestName guestPhone guestEmail
                     notes now])
                 updated_at := now }) store,
             true))) := by
  intro store rid cin cout g gp ge nt now room h1 h2 h3 hf h5
  have hiff : hasDuplicateBooking cin cout g (room.bookedIntervals.getD []) = true ↔
      ∃ i ∈ room.bookedIntervals.getD [],
        (cin < i.checkOut ∧ i.checkIn < cout) ∨
        (i.checkIn = cin ∧ i.checkOut = cout ∧ i.guestName = g) := by
    rw [hasDuplicateBooking_iff]
    constructor
    · rintro ⟨i, hi, hx | ho⟩
      · exact ⟨i, hi, Or.inr hx⟩
      · exact ⟨i, hi, Or.inl ⟨ho.2.2.1, ho.2.2.2⟩⟩
    · rintro ⟨i, hi, ho | hx⟩
      · exact ⟨i, hi, Or.inr ⟨(h5 i hi).1, (h5 i hi).2, ho.1, ho.2⟩⟩
      · exact ⟨i, hi, Or.inl hx⟩
  constructor
  · by_cases hD : hasDuplicateBooking cin cout g (room.bookedIntervals.getD []) = true
    · have hres : (bookRoomFallback store rid cin cout g gp ge nt now).1 =
          BookResp.conflict := by
        simp [bookRoomFallback, h1, h2, h3, hf, hD]
      rw [hres]
      exact ⟨fun _ => hiff.mp hD, fun _ => rfl⟩
    · have hD' : hasDuplicateBooking cin cout g (room.bookedIntervals.getD []) = false :=
        Bool.eq_false_iff.mpr hD
      have hres : (bookRoomFallback store rid cin cout g gp ge nt now).1 =
          BookResp.ok (newBookingInterval cin cout g gp ge nt now) := by
        simp [bookRoomFallback, h1, h2, h3, hf, hD']
      rw [hres]
      constructor
      · intro hcon
        exact absurd hcon (by simp)
      · intro hx
        exact absurd (hiff.mpr hx) hD
  · intro hno
    have hD' : hasDuplicateBooking cin cout g (room.bookedIntervals.getD []) = false := by
      rw [Bool.eq_false_iff]
      intro hD
      obtain ⟨i, hi, hx⟩ := hiff.mp hD
      exact hno i hi hx
    simp [bookRoomFallback, h1, h2, h3, hf, hD']

/-- Witness for C1: a back-to-back booking with a different guest is
accepted and appended. -/
theorem book_room_conflict_spec_witness :
    bookRoomFallback [sampleRoom] "0101" "2024-06-05" "2024-06-08" "Bob" "" "" "" "T1" =
      (BookResp.ok (newBookingInterval "2024-06-05" "2024-06-08" "Bob" "" "" "" "T1"),
       updateFirst (fun r => r.id == "0101")
         (fun r => { r with
           bookedIntervals := some (r.bookedIntervals.getD [] ++
             [newBookingInterval "2024-06-05" "2024-06-08" "Bob" "" "" "" "T1"])
           updated_at := "T1" }) [sampleRoom],
       true) :=
  (book_room_conflict_spec [sampleRoom] "0101" "2024-06-05" "2024-06-08" "Bob" "" "" ""
    "T1" sampleRoom (by decide) (by decide) (by decide) rfl (by decide)).2
    (by
      intro i hi h
      have hmem : i = juneInterval := by
        simpa [sampleRoom] using hi
      rcases h with hov | hex
      · rw [hmem] at hov
        exact absurd hov.1 (by rw [show juneInterval.checkOut = "2024-06-05" from rfl]; exact lt_irrefl _)
      · rw [hmem] at hex
        exact absurd hex.2.2 (by decide))

/-- The create body of the C3 examples; the caller supplies `custom_id`
explicitly. -/
def emptyIdReq : CreateReq :=
  { name := some "Suite", price := some 100, capacity := some 2,
    description := some "d", amenities := some [], custom_id := some "" }

/-- C3 counterexample: a caller-supplied empty `custom_id` is not 4 ASCII
digits, yet `add_room` does not fail with a validation error: the empty
string is falsy, so the 4-digit check is skipped and an id is synthesized
instead (the room is created with id 0001). -/
theorem add_room_empty_custom_id_accepted :
    emptyIdReq.custom_id = some "" ∧
    (addRoomFallback [] emptyIdReq "T0").1 =
      AddResp.created (newRoomDoc emptyIdReq "0001" "T0") ∧
    AddResp.created (newRoomDoc emptyIdReq "0001" "T0") ≠ AddResp.invalidId := by
  exact ⟨rfl, by decide, by decide⟩

/-- C3 (amended): for every create request carrying a non-empty
caller-supplied `custom_id` made of ASCII characters, `add_room` fails with
the 400 validation error unless the id is exactly 4 digits (so 101, 10101
and 01a1 are rejected), in both fallback and MongoDB modes; a valid 4-digit
id such as 0101 passes validation and, when not already taken, the room is
created under it.  An empty `custom_id` is treated as absent and an id is
synthesized instead of failing. -/
theorem add_room_custom_id_validation :
    ∀ (store : List Room) (req : CreateReq) (now s : String),
      requiredFieldsPresent req = true →
      req.custom_id = some s → s ≠ "" →
      (∀ c ∈ s.data, c.toNat < 128) →
      (((pyIsDigit s && s.length == 4) = false →
        addRoomFallback store req now = (AddResp.invalidId, store, false) ∧
        ∀ (coll : List Room) (oid : String),
          addRoomMongo coll req oid now = (AddResp.invalidId, coll))
      ∧ ((pyIsDigit s && s.length == 4) = true →
          store.find? (fun r => r.id == s) = none →
          addRoomFallback store req now =
            (AddResp.created (newRoomDoc req s now), store ++ [newRoomDoc req s now],
             true))) := by
  intro store req now s hreq hcid hne _hascii
  have htruthy : customIdTruthy req.custom_id = true := by
    rw [hcid]
    simp [customIdTruthy, hne]
  have hvalid : customIdValid req = (pyIsDigit s && s.length == 4) := by
    simp [customIdValid, hcid]
  constructor
  · intro hbad
    constructor
    · simp [addRoomFallback, hreq, htruthy, hvalid, hbad]
    · intro coll oid
      simp [addRoomMongo, hreq, htruthy, hvalid, hbad]
  · intro hgood hfind
    have hres : resolvedFallbackId store req = s := by
      unfold resolvedFallbackId
      rw [if_pos htruthy, hcid]
      rfl
    simp [addRoomFallback, hreq, htruthy, hvalid, hgood, hres, hfind]

/-- Witness for C3 at the four concrete ids of the specification. -/
theorem add_room_custom_id_validation_witness :
    addRoomFallback [] { emptyIdReq with custom_id := some "101" } "T0" =
      (AddResp.invalidId, [], false) ∧
    addRoomFallback [] { emptyIdReq with custom_id := some "10101" } "T0" =
      (AddResp.invalidId, [], false) ∧
    addRoomFallback [] { emptyIdReq with custom_id := some "01a1" } "T0" =
      (AddResp.invalidId, [], false) ∧
    addRoomFallback [] { emptyIdReq with custom_id := some "0101" } "T0" =
      (AddResp.created (newRoomDoc { emptyIdReq with custom_id := some "0101" } "0101" "T0"),
       [newRoomDoc { emptyIdReq with custom_id := some "0101" } "0101" "T0"], true) := by
  refine ⟨?_, ?_, ?_, ?_⟩
  · exact ((add_room_custom_id_validation [] _ "T0" "101" (by decide) rfl (by decide)
      (by decide)).1 (by decide)).1
  · exact ((add_room_custom_id_validation [] _ "T0" "10101" (by decide) rfl (by decide)
      (by decide)).1 (by decide)).1
  · exact ((add_room_custom_id_validation [] _ "T0" "01a1" (by decide) rfl (by decide)
      (by decide)).1 (by decide)).1
  · exact (add_room_custom_id_validation [] _ "T0" "0101" (by decide) rfl (by decide)
      (by decide)).2 (by decide) rfl

/-- C4: a create whose resolved id already exists in the store fails with
the duplicate-id error and leaves the store unchanged, in fallback mode for
both caller-supplied and synthesized ids, and in MongoDB mode for
caller-supplied ids (an auto-generated MongoDB ObjectId is fresh by the
driver's contract, so no pair of creates can resolve to the same id that
way). -/
theorem add_room_duplicate_id_rejected :
    ∀ (store coll : List Room) (req : CreateReq) (now oid : String),
      requiredFieldsPresent req = true →
      (customIdTruthy req.custom_id = true → customIdValid req = true) →
      (((∃ r ∈ store, r.id = resolvedFallbackId store req) →
        addRoomFallback store req now =
          (AddResp.duplicate (resolvedFallbackId store req), store, false))
      ∧ (customIdTruthy req.custom_id = true →
         (∃ r ∈ coll, r.id = req.custom_id.getD "") →
         addRoomMongo coll req oid now =
           (AddResp.duplicate (req.custom_id.getD ""), coll))) := by
  intro store coll req now oid hreq hval
  have hcond : (customIdTruthy req.custom_id && !(customIdValid req)) = false := by
    cases h : customIdTruthy req.custom_id
    · simp
    · simp [hval h]
  constructor
  · intro hex
    have hfind : store.find? (fun r => r.id == resolvedFallbackId store req) ≠ none := by
      intro hnone
      rw [List.find?_eq_none] at hnone
      obtain ⟨r, hr, hid⟩ := hex
      exact hnone r hr (by simp [hid])
    obtain ⟨r0, hr0⟩ := Option.ne_none_iff_exists'.mp hfind
    simp [addRoomFallback, hreq, hcond, hr0]
  · intro htruthy hex
    have hfind : coll.find? (fun r => r.id == req.custom_id.getD "") ≠ none := by
      intro hnone
      rw [List.find?_eq_none] at hnone
      obtain ⟨r, hr, hid⟩ := hex
      exact hnone r hr (by simp [hid])
    obtain ⟨r0, hr0⟩ := Option.ne_none_iff_exists'.mp hfind
    simp [addRoomMongo, hreq, hval htruthy, htruthy, hr0]

/-- Witness for C4: re-creating id 0101 over a store that already holds it
fails and leaves the store as it was. -/
theorem add_room_duplicate_id_rejected_witness :
    addRoomFallback [sampleRoom] { emptyIdReq with custom_id := some "0101" } "T1" =
      (AddResp.duplicate "0101", [sampleRoom], false) := by
  exact (add_room_duplicate_id_rejected [sampleRoom] []
    { emptyIdReq with custom_id := some "0101" } "T1" "" (by decide)
    (fun _ => by decide)).1 ⟨sampleRoom, by decide, by decide⟩

/-- A partial-update body carrying only a price. -/
def priceOnlyReq : UpdateReq :=
  { name := none, price := some 150, capacity := none, persons := none,
    description := none, amenities := none }

/-- C6: `update_room` applies exactly the fields present in the request body
(absent fields keep their stored values), sets `updated_at` to the current
time, persists the result, and answers 404 on a non-existent id, in both the
fallback and the MongoDB branch; the MongoDB branch additionally honours a
`persons` key, which wins over `capacity`. -/
theorem update_room_partial_spec :
    ∀ (store : List Room) (roomId : String) (req : UpdateReq) (now : String),
      (store.find? (fun r => r.id == roomId) = none →
        updateRoomFallback store roomId req now = (UpdateResp.notFound, store, false) ∧
        updateRoomMongo store roomId req now = (UpdateResp.notFound, store))
      ∧ (∀ room, store.find? (fun r => r.id == roomId) = some room →
          updateRoomFallback store roomId req now =
            (UpdateResp.ok (applyUpdateFallback room req now),
             updateFirst (fun r => r.id == roomId)
               (fun _ => applyUpdateFallback room req now) store,
             true) ∧
          updateRoomMongo store roomId req now =
            (UpdateResp.ok (applyUpdateMongo room req now),
             replaceOneUpsert store roomId (applyUpdateMongo room req now)))
      ∧ (∀ room : Room,
          (applyUpdateFallback room req now).updated_at = now
          ∧ (req.name = none → (applyUpdateFallback room req now).name = room.name)
          ∧ (∀ v, req.name = some v → (applyUpdateFallback room req now).name = v)
          ∧ (req.price = none → (applyUpdateFallback room req now).price = room.price)
          ∧ (∀ v, req.price = some v → (applyUpdateFallback room req now).price = v)
          ∧ (req.capacity = none → (applyUpdateFallback room req now).persons = room.persons)
          ∧ (∀ v, req.capacity = some v → (applyUpdateFallback room req now).persons = v)
          ∧ (req.description = none →
              (applyUpdateFallback room req now).description = room.description)
          ∧ (∀ v, req.description = some v →
              (applyUpdateFallback room req now).description = v)
          ∧ (req.amenities = none →
              (applyUpdateFallback room req now).amenities = room.amenities)
          ∧ (∀ v, req.amenities = some v → (applyUpdateFallback room req now).amenities = v)
          ∧ (applyUpdateFallback room req now).id = room.id
          ∧ (applyUpdateFallback room req now).bookedIntervals = room.bookedIntervals
          ∧ (applyUpdateFallback room req now).created_at = room.created_at)
      ∧ (∀ room : Room,
          (applyUpdateMongo room req now).updated_at = now
          ∧ (req.persons = none → req.capacity = none →
              (applyUpdateMongo room req now).persons = room.persons)
          ∧ (∀ v, req.persons = some v → (applyUpdateMongo room req now).persons = v)
          ∧ (req.persons = none → ∀ v, req.capacity = some v →
              (applyUpdateMongo room req now).persons = v)
          ∧ (applyUpdateMongo room req now).id = room.id
          ∧ (applyUpdateMongo room req now).bookedIntervals = room.bookedIntervals
          ∧ (applyUpdateMongo room req now).created_at = room.created_at) := by
  intro store rid req now
  refine ⟨fun h => ⟨?_, ?_⟩, fun room h => ⟨?_, ?_⟩, fun room => ?_, fun room => ?_⟩
  · simp [updateRoomFallback, h]
  · simp [updateRoomMongo, h]
  · simp [updateRoomFallback, h]
  · simp [updateRoomMongo, h]
  · refine ⟨rfl, ?_, ?_, ?_, ?_, ?_, ?_, ?_, ?_, ?_, ?_, rfl, rfl, rfl⟩ <;>
      (intros; simp [applyUpdateFallback, *])
  · refine ⟨rfl, ?_, ?_, ?_, rfl, rfl, rfl⟩ <;> (intros; simp [applyUpdateMongo, *])

/-- Witness for C6: updating only the price of a stored room. -/
theorem update_room_partial_spec_witness :
    updateRoomFallback [sampleRoom] "0101" priceOnlyReq "T2" =
      (UpdateResp.ok (applyUpdateFallback sampleRoom priceOnlyReq "T2"),
       updateFirst (fun r => r.id == "0101")
         (fun _ => applyUpdateFallback sampleRoom priceOnlyReq "T2") [sampleRoom],
       true) :=
  ((update_room_partial_spec [sampleRoom] "0101" priceOnlyReq "T2").2.1 sampleRoom rfl).1

/-- C7 counterexample: with two stored intervals sharing the exact pair
(2024-06-01, 2024-06-01) — reachable, since two degenerate bookings by
different guests never trip the overlap or exact-duplicate tests —
`unbook_room` removes both intervals, not only the first one as the claim
states (`removeFirstPair` is the claimed behaviour). -/
theorem unbook_room_removes_all_matching :
    (unbookRoomFallback [{ sampleRoom with
        bookedIntervals := some [degenInterval, { degenInterval with guestName := "Bob" }] }]
      "0101" "2024-06-01" "2024-06-01" "T1").2.1 =
      [{ sampleRoom with bookedIntervals := some [], updated_at := "T1" }] ∧
    removeFirstPair "2024-06-01" "2024-06-01"
      [degenInterval, { degenInterval with guestName := "Bob" }] =
      [{ degenInterval with guestName := "Bob" }] ∧
    (some ([] : List Interval) : Option (List Interval)) ≠
      some [{ degenInterval with guestName := "Bob" }] := by
  refine ⟨by decide, by decide, by decide⟩

/-- C7 (amended): `unbook_room` removes every interval whose
(checkIn, checkOut) exactly matches the requested pair — which is the first
and only such interval whenever the pair is unique within the room — and
answers success; in fallback mode, when the room has a bookedIntervals list
and no interval matches, it answers 404 and the store is untouched; in
MongoDB mode a non-matching pair is nevertheless answered with success,
because the update also refreshes updated_at and so the document counts as
modified. -/
theorem unbook_room_spec :
    ∀ (store : List Room) (roomId checkIn checkOut now : String) (room : Room)
      (intervals : List Interval),
      checkIn ≠ "" → checkOut ≠ "" →
      store.find? (fun r => r.id == roomId) = some room →
      room.bookedIntervals = some intervals →
      (((∃ i ∈ intervals, i.checkIn = checkIn ∧ i.checkOut = checkOut) →
        unbookRoomFallback store roomId checkIn checkOut now =
          (UnbookResp.ok,
           updateFirst (fun r => r.id == roomId)
             (fun _ => { room with
               bookedIntervals := some (intervals.filter fun i =>
                 !(i.checkIn == checkIn && i.checkOut == checkOut))
               updated_at := now }) store,
           true))
      ∧ ((∀ i ∈ intervals, ¬(i.checkIn = checkIn ∧ i.checkOut = checkOut)) →
          unbookRoomFallback store roomId checkIn checkOut now =
            (UnbookResp.bookingNotFound, store, false))
      ∧ (∀ (coll : List Room) (r : Room),
          coll.find? (fun x => x.id == roomId) = some r →
          now ≠ r.updated_at →
          (∀ i ∈ r.bookedIntervals.getD [],
            ¬(i.checkIn = checkIn ∧ i.checkOut = checkOut)) →
          (unbookRoomMongo coll roomId checkIn checkOut now).1 = UnbookResp.ok)) := by
  intro store rid cin cout now room intervals h1 h2 hf hb
  have hval : ¬(cin = "" ∨ cout = "") := by simp [h1, h2]
  refine ⟨fun hex => ?_, fun hno => ?_, fun coll r hfr hnow hno => ?_⟩
  · have hlen : ¬ ((intervals.filter fun i =>
        !(i.checkIn == cin && i.checkOut == cout)).length = intervals.length) := by
      rw [List.filter_length_eq_length]
      intro hall
      obtain ⟨i, hi, hiin, hiout⟩ := hex
      have := hall i hi
      simp [hiin, hiout] at this
    simp only [unbookRoomFallback, hf, hb]
    rw [if_neg hval, if_neg hlen]
  · have hlen : ((intervals.filter fun i =>
        !(i.checkIn == cin && i.checkOut == cout)).length = intervals.length) := by
      rw [List.filter_length_eq_length]
      intro i hi
      have hni := hno i hi
      cases hbeq : (i.checkIn == cin && i.checkOut == cout)
      · rfl
      · exfalso
        simp only [Bool.and_eq_true, beq_iff_eq] at hbeq
        exact hni ⟨hbeq.1, hbeq.2⟩
    simp only [unbookRoomFallback, hf, hb]
    rw [if_neg hval, if_pos hlen]
  · cases hbl : r.bookedIntervals with
    | none =>
      have hne' : ({ r with bookedIntervals := none, updated_at := now } : Room) ≠ r :=
        fun he => hnow (congrArg Room.updated_at he)
      simp only [unbookRoomMongo, hfr, hbl, Option.map_none']
      rw [if_neg hval, if_neg hne']
    | some l =>
      have hfl : (l.filter fun i => !(i.checkIn == cin && i.checkOut == cout)) = l := by
        apply List.filter_eq_self.mpr
        intro i hi
        have hni := hno i (by rw [hbl]; exact hi)
        cases hbeq : (i.checkIn == cin && i.checkOut == cout)
        · rfl
        · exfalso
          simp only [Bool.and_eq_true, beq_iff_eq] at hbeq
          exact hni ⟨hbeq.1, hbeq.2⟩
      have hne' : ({ r with bookedIntervals := some l, updated_at := now } : Room) ≠ r :=
        fun he => hnow (congrArg Room.updated_at he)
      simp only [unbookRoomMongo, hfr, hbl, Option.map_some', hfl]
      rw [if_neg hval, if_neg hne']

/-- Witness for C7: cancelling the stored June booking empties the interval
list and writes the file. -/
theorem unbook_room_spec_witness :
    unbookRoomFallback [sampleRoom] "0101" "2024-06-01" "2024-06-05" "T1" =
      (UnbookResp.ok,
       updateFirst (fun r => r.id == "0101")
         (fun _ => { sampleRoom with
           bookedIntervals := some ([juneInterval].filter fun i =>
             !(i.checkIn == "2024-06-01" && i.checkOut == "2024-06-05"))
           updated_at := "T1" }) [sampleRoom],
       true) :=
  (unbook_room_spec [sampleRoom] "0101" "2024-06-01" "2024-06-05" "T1" sampleRoom
    [juneInterval] (by decide) (by decide) rfl rfl).1
    ⟨juneInterval, by decide, rfl, rfl⟩

theorem updateFirstInterval_append (cIn cOut : String) (f : Interval → Interval)
    (pre : List Interval) (i : Interval) (post : List Interval)
    (hpre : ∀ j ∈ pre, ¬(j.checkIn = cIn ∧ j.checkOut = cOut))
    (h1 : i.checkIn = cIn) (h2 : i.checkOut = cOut) :
    updateFirstInterval cIn cOut f (pre ++ i :: post) = some (pre ++ f i :: post) := by
  induction pre with
  | nil => simp [updateFirstInterval, h1, h2]
  | cons j rest ih =>
    have hj := hpre j (List.mem_cons_self j rest)
    have hbeq : (j.checkIn == cIn && j.checkOut == cOut) = false := by
      cases hb : (j.checkIn == cIn && j.checkOut == cOut)
      · rfl
      · exfalso
        simp only [Bool.and_eq_true, beq_iff_eq] at hb
        exact hj ⟨hb.1, hb.2⟩
    simp only [List.cons_append, updateFirstInterval, hbeq, Bool.false_eq_true,
      if_false, List.append_eq]
    rw [ih (fun k hk => hpre k (List.mem_cons_of_mem j hk))]
    rfl

theorem updateFirstInterval_eq_none (cIn cOut : String) (f : Interval → Interval) :
    ∀ L : List Interval, updateFirstInterval cIn cOut f L = none ↔
      ∀ i ∈ L, ¬(i.checkIn = cIn ∧ i.checkOut = cOut) := by
  intro L
  induction L with
  | nil => simp [updateFirstInterval]
  | cons i rest ih =>
    by_cases hb : (i.checkIn == cIn && i.checkOut == cOut) = true
    · simp only [updateFirstInterval, hb, if_true]
      have hb' : i.checkIn = cIn ∧ i.checkOut = cOut := by
        simp only [Bool.and_eq_true, beq_iff_eq] at hb
        exact hb
      constructor
      · intro h
        exact absurd h (by simp)
      · intro h
        exact absurd hb' (h i (List.mem_cons_self i rest))
    · have hb' : (i.checkIn == cIn && i.checkOut == cOut) = false := Bool.eq_false_iff.mpr hb
      have hni : ¬(i.checkIn = cIn ∧ i.checkOut = cOut) := by
        intro h
        exact hb (by simp [h.1, h.2])
      rw [show updateFirstInterval cIn cOut f (i :: rest) =
          (updateFirstInterval cIn cOut f rest).map (i :: ·) from by
        simp [updateFirstInterval, hb']]
      rw [Option.map_eq_none', ih]
      constructor
      · intro h j hj
        rcases List.mem_cons.mp hj with rfl | hj
        · exact hni
        · exact h j hj
      · intro h j hj
        exact h j (List.mem_cons_of_mem _ hj)

/-- C8 counterexample: in fallback mode a stored room without any
bookedIntervals field contains no interval matching the requested pair, yet
`update_booking` answers 200 (Booking updated successfully) instead of the
404 the claim requires, because the whole update block is guarded by the
`bookedIntervals in room` test. -/
theorem update_booking_missing_intervals_success :
    updateBookingFallback [{ sampleRoom with bookedIntervals := none }] "0101"
      "2024-06-01" "2024-06-05" "Bob" "" "" "" "T1" =
      (UpdateBkResp.ok, [{ sampleRoom with bookedIntervals := none }], false) ∧
    UpdateBkResp.ok ≠ UpdateBkResp.bookingNotFound := by
  refine ⟨by decide, by decide⟩

/-- C8 (amended): in fallback mode, `update_booking` overwrites only the
guest-identity fields (guestName, guestPhone, guestEmail, notes) and
updatedAt of the first interval matching the exact (checkIn, checkOut) pair,
leaving that interval's dates and createdAt and all other intervals of the
room unchanged; when the room has a bookedIntervals list and no interval
matches the pair it answers 404; when the stored room has no bookedIntervals
field at all it answers 200 without modifying anything, rather than 404. -/
theorem update_booking_spec :
    ∀ (store : List Room)
      (roomId checkIn checkOut guestName guestPhone guestEmail notes now : String)
      (room : Room),
      checkIn ≠ "" → checkOut ≠ "" → guestName ≠ "" →
      store.find? (fun r => r.id == roomId) = some room →
      ((∀ i : Interval,
        (setGuestFields guestName guestPhone guestEmail notes now i).checkIn = i.checkIn ∧
        (setGuestFields guestName guestPhone guestEmail notes now i).checkOut = i.checkOut ∧
        (setGuestFields guestName guestPhone guestEmail notes now i).createdAt = i.createdAt ∧
        (setGuestFields guestName guestPhone guestEmail notes now i).guestName = guestName ∧
        (setGuestFields guestName guestPhone guestEmail notes now i).guestPhone = guestPhone ∧
        (setGuestFields guestName guestPhone guestEmail notes now i).guestEmail = guestEmail ∧
        (setGuestFields guestName guestPhone guestEmail notes now i).notes = notes ∧
        (setGuestFields guestName guestPhone guestEmail notes now i).updatedAt = some now)
      ∧ (∀ (pre : List Interval) (i : Interval) (post : List Interval),
          room.bookedIntervals = some (pre ++ i :: post) →
          (∀ j ∈ pre, ¬(j.checkIn = checkIn ∧ j.checkOut = checkOut)) →
          i.checkIn = checkIn → i.checkOut = checkOut →
          updateBookingFallback store roomId checkIn checkOut guestName guestPhone
            guestEmail notes now =
            (UpdateBkResp.ok,
             updateFirst (fun r => r.id == roomId)
               (fun _ => { room with
                 bookedIntervals := some (pre ++
                   setGuestFields guestName guestPhone guestEmail notes now i :: post)
                 updated_at := now }) store,
             true))
      ∧ (∀ intervals, room.bookedIntervals = some intervals →
          (∀ i ∈ intervals, ¬(i.checkIn = checkIn ∧ i.checkOut = checkOut)) →
          updateBookingFallback store roomId checkIn checkOut guestName guestPhone
            guestEmail notes now = (UpdateBkResp.bookingNotFound, store, false))
      ∧ (room.bookedIntervals = none →
          updateBookingFallback store roomId checkIn checkOut guestName guestPhone
            guestEmail notes now = (UpdateBkResp.ok, store, false))) := by
  intro store rid cin cout g gp ge nt now room h1 h2 h3 hf
  refine ⟨fun i => ⟨rfl, rfl, rfl, rfl, rfl, rfl, rfl, rfl⟩, ?_, ?_, ?_⟩
  · intro pre i post hbl hpre hiin hiout
    have hupd := updateFirstInterval_append cin cout
      (setGuestFields g gp ge nt now) pre i post hpre hiin hiout
    simp [updateBookingFallback, h1, h2, h3, hf, hbl, hupd]
  · intro intervals hbl hno
    have hupd : updateFirstInterval cin cout (setGuestFields g gp ge nt now) intervals =
        none :=
      (updateFirstInterval_eq_none cin cout _ intervals).mpr hno
    simp [updateBookingFallback, h1, h2, h3, hf, hbl, hupd]
  · intro hbl
    simp [updateBookingFallback, h1, h2, h3, hf, hbl]

/-- Witness for C8: updating the guest fields of the stored June booking. -/
theorem update_booking_spec_witness :
    updateBookingFallback [sampleRoom] "0101" "2024-06-01" "2024-06-05" "Carol" "123"
      "carol.example" "note" "T2" =
      (UpdateBkResp.ok,
       updateFirst (fun r => r.id == "0101")
         (fun _ => { sampleRoom with
           bookedIntervals := some ([] ++
             setGuestFields "Carol" "123" "carol.example" "note" "T2" juneInterval :: [])
           updated_at := "T2" }) [sampleRoom],
       true) :=
  (update_booking_spec [sampleRoom] "0101" "2024-06-01" "2024-06-05" "Carol" "123"
    "carol.example" "note" "T2" sampleRoom (by decide) (by decide) (by decide) rfl).2.1
    [] juneInterval [] rfl (by intro j hj; exact absurd hj (List.not_mem_nil j)) rfl rfl

end Homestay
